import Mathlib

/-!
Verification development for the Agent Hub service (`main.py`).

The embedding models the agent-registry endpoints as pure functions:
the database session becomes an explicit list of agent records, the
single outbound HTTP call an endpoint performs becomes an explicit
outcome parameter, and `datetime.utcnow()` becomes a `now : Nat`
parameter.  JSON values produced by `resp.json()` are modelled by the
inductive `Json`; a body that fails to parse is represented by `none`
in the network outcome.
-/

set_option autoImplicit false

namespace AgentHub

/-- JSON values as produced by Python's `json` module. -/
inductive Json where
  | null
  | bool (b : Bool)
  | num (n : Int)
  | str (s : String)
  | arr (elems : List Json)
  | obj (fields : List (String × Json))

/-- Raw key lookup on a JSON value, Python-dict style: defined only on
objects, and when a key occurs twice the LAST occurrence wins (as in
`json.loads`).  Returns `none` when the value is not an object or the
key is absent. -/
def jLookup : Json → String → Option Json
  | Json.obj fields, k =>
      fields.foldl (fun acc p => if p.1 = k then some p.2 else acc) none
  | _, _ => none

/-- Python's `card.get(k)` after `json.loads`: a JSON `null` value is
indistinguishable from an absent key (both are Python `None`). -/
def pyGet (j : Json) (k : String) : Option Json :=
  match jLookup j k with
  | some Json.null => none
  | v => v

/-- `str.rstrip("/")`: remove every trailing `/` character. -/
def rstripSlash (s : String) : String :=
  String.mk ((s.data.reverse.dropWhile (fun c => c = '/')).reverse)

/-- One stored skill triple, as built by `register_agent`. -/
structure Skill where
  id : Option Json
  name : Option Json
  description : Option Json

/-- A row of the `agents` table (fields the endpoints read or write). -/
structure Agent where
  id : Nat
  url : String
  name : Option Json
  description : Option Json
  version : Option Json
  skills : List Skill
  provider : Option Json
  documentationUrl : Option Json
  userId : Nat
  isHealthy : Bool
  lastHealthCheck : Option Nat

/-- The one outbound HTTP GET a registration or probe performs. -/
inductive FetchOutcome where
  /-- `httpx` raised a transport-level error (`httpx.HTTPError`). -/
  | transportError (msg : String)
  /-- A response arrived with this status; `bodyJson` is the parse of
  the body (`none` when the body is not valid JSON). -/
  | response (status : Nat) (bodyJson : Option Json)

/-- `raise_for_status` succeeds exactly on 2xx statuses. -/
def is2xx (s : Nat) : Bool :=
  decide (200 ≤ s) && decide (s < 300)

/-- Errors of the card-fetch block in `register_agent`
(lines 333-347): `httpx.HTTPError` is caught first, any other
exception (in practice the JSON decode error of `resp.json()`)
second. -/
inductive FetchErr where
  | httpError (msg : String)
  | parseError (msg : String)

/-- The fetch-and-parse block of `register_agent`: GET the card URL,
`raise_for_status()`, then `resp.json()`. -/
def fetchCard (net : FetchOutcome) : Except FetchErr Json :=
  match net with
  | FetchOutcome.transportError m => Except.error (FetchErr.httpError m)
  | FetchOutcome.response s j =>
      if is2xx s then
        match j with
        | some card => Except.ok card
        | none => Except.error (FetchErr.parseError "JSON decode error")
      else
        Except.error (FetchErr.httpError ("status error " ++ toString s))

/-- One skill entry of the card: `skill.get(...)` succeeds only when
the element is a dict; on any other element the loop raises an
uncaught `AttributeError`. -/
def skillOf (j : Json) : Option Skill :=
  match j with
  | Json.obj _ => some ⟨pyGet j "id", pyGet j "name", pyGet j "description"⟩
  | _ => none

/-- The skills-extraction loop of `register_agent` (lines 350-357).
`none` models an uncaught exception: iterating a non-iterable value,
or an element without `.get`.  Iterating an empty string or an empty
dict performs no iterations and leaves `skills = []`. -/
def extractSkills (card : Json) : Option (List Skill) :=
  match jLookup card "skills" with
  | none => some []
  | some (Json.arr xs) => xs.mapM skillOf
  | some (Json.str s) => if s = "" then some [] else none
  | some (Json.obj []) => some []
  | some (Json.obj (_ :: _)) => none
  | some _ => none

/-- The provider projection of `register_agent` (line 366):
organization field if the provider is a dict, else the value
verbatim (Python `None`, i.e. absent, when missing or null). -/
def extractProvider (card : Json) : Option Json :=
  match jLookup card "provider" with
  | some (Json.obj fields) => pyGet (Json.obj fields) "organization"
  | some Json.null => none
  | some v => some v
  | none => none

/-- The non-skill scalar projections plus the record assembly
(lines 360-371).  `none` models the uncaught `AttributeError` of
`card.get(...)` on a non-dict card. -/
def projectCard (card : Json) (canonUrl : String) (newId userId now : Nat) :
    Option Agent :=
  match card with
  | Json.obj _ =>
      (extractSkills card).map fun sk =>
        { id := newId
          url := canonUrl
          name := pyGet card "name"
          description := pyGet card "description"
          version := pyGet card "version"
          skills := sk
          provider := extractProvider card
          documentationUrl := pyGet card "documentationUrl"
          userId := userId
          isHealthy := true
          lastHealthCheck := some now }
  | _ => none

/-- Result of `POST /api/agents` (`register_agent`). -/
inductive RegisterResult where
  /-- HTTP 400 "Agent already registered". -/
  | duplicate
  /-- HTTP 400, the `httpx.HTTPError` branch. -/
  | fetchFailed (detail : String)
  /-- HTTP 400, the generic exception branch (unparsable card). -/
  | invalidCard (detail : String)
  /-- An uncaught exception during projection (HTTP 500). -/
  | serverError
  /-- HTTP 200 with the created record. -/
  | ok (a : Agent)

/-- `register_agent` (lines 317-388): canonicalize the URL, check for a
duplicate, fetch and parse the card, project it, append the record. -/
def register (store : List Agent) (newId : Nat) (reqUrl : String)
    (userId : Nat) (net : FetchOutcome) (now : Nat) :
    RegisterResult × List Agent :=
  if store.any (fun a => a.url = rstripSlash reqUrl) then
    (RegisterResult.duplicate, store)
  else
    match fetchCard net with
    | Except.error (FetchErr.httpError m) =>
        (RegisterResult.fetchFailed
          ("Failed to fetch agent card from " ++ rstripSlash reqUrl ++
            "/.well-known/agent.json: " ++ m), store)
    | Except.error (FetchErr.parseError m) =>
        (RegisterResult.invalidCard ("Invalid agent card response: " ++ m),
          store)
    | Except.ok card =>
        match projectCard card (rstripSlash reqUrl) newId userId now with
        | none => (RegisterResult.serverError, store)
        | some a => (RegisterResult.ok a, store ++ [a])

/-- `select(Agent).where(Agent.id == agent_id)` + `scalar_one_or_none`. -/
def findAgent (store : List Agent) (agentId : Nat) : Option Agent :=
  store.find? (fun a => a.id == agentId)

/-- The health-update-and-commit pattern shared by `test_agent` and
`check_agent_health`: set `is_healthy` and `last_health_check` on the
selected row, leave every other field and row untouched. -/
def setHealth (store : List Agent) (agentId : Nat) (h : Bool) (now : Nat) :
    List Agent :=
  store.map fun a =>
    if a.id == agentId then
      { a with isHealthy := h, lastHealthCheck := some now }
    else a

/-- The body of `AgentTestRequest`: message, the four optional
credential fields, and the custom-header mapping (a Python dict in
insertion order with pairwise-distinct keys; absent means `[]`). -/
structure AgentTestRequest where
  message : String
  openai_api_key : Option String
  openai_base_url : Option String
  openai_model : Option String
  tavily_api_key : Option String
  custom_headers : List (String × String)

/-- Python dict assignment `d[k] = v` on an insertion-ordered
association list: overwrite in place if the key exists, else append. -/
def dictSet (d : List (String × String)) (k v : String) :
    List (String × String) :=
  if d.any (fun p => p.1 = k) then
    d.map (fun p => if p.1 = k then (k, v) else p)
  else
    d ++ [(k, v)]

/-- Reading a key of the finished header dict (first match; keys are
unique because the dict is built by `dictSet`). -/
def dictGet : List (String × String) → String → Option String
  | [], _ => none
  | p :: d, k => if p.1 = k then some p.2 else dictGet d k

/-- `key.lower().startswith("x-")`: the lowercased key begins with the
two characters `x-`, i.e. its first character lowercases to `x` and
its second is `-` (lowercasing leaves `-` fixed). -/
def startsWithXDash (k : String) : Bool :=
  match k.data.map Char.toLower with
  | c1 :: c2 :: _ => c1 == 'x' && c2 == '-'
  | _ => false

/-- The header-name rule of `test_agent`/`stream_agent` (lines 440,
507): `key if key.lower().startswith("x-") else f"X-{key}"`. -/
def header_key (k : String) : String :=
  if startsWithXDash k then k else "X-" ++ k

/-- The custom-header loop (lines 438-441, 505-508): applied AFTER the
fixed headers, one dict assignment per entry in order. -/
def applyCustomHeaders (h : List (String × String))
    (custom : List (String × String)) : List (String × String) :=
  custom.foldl (fun acc kv => dictSet acc (header_key kv.1) kv.2) h

/-- The fixed headers of `test_agent` (lines 428-436). -/
def baseTestHeaders (req : AgentTestRequest) : List (String × String) :=
  let h := [("Content-Type", "application/json")]
  let h := match req.openai_api_key with
    | some v => dictSet h "X-OpenAI-API-Key" v
    | none => h
  let h := match req.openai_base_url with
    | some v => dictSet h "X-OpenAI-Base-URL" v
    | none => h
  let h := match req.openai_model with
    | some v => dictSet h "X-OpenAI-Model" v
    | none => h
  match req.tavily_api_key with
    | some v => dictSet h "X-Tavily-API-Key" v
    | none => h

/-- Full outbound headers of the synchronous invoke. -/
def buildTestHeaders (req : AgentTestRequest) : List (String × String) :=
  applyCustomHeaders (baseTestHeaders req) req.custom_headers

/-- The fixed headers of `stream_agent` (lines 496-504): same as the
synchronous ones plus `Accept: text/event-stream`. -/
def baseStreamHeaders (req : AgentTestRequest) : List (String × String) :=
  let h := [("Content-Type", "application/json"),
            ("Accept", "text/event-stream")]
  let h := match req.openai_api_key with
    | some v => dictSet h "X-OpenAI-API-Key" v
    | none => h
  let h := match req.openai_base_url with
    | some v => dictSet h "X-OpenAI-Base-URL" v
    | none => h
  let h := match req.openai_model with
    | some v => dictSet h "X-OpenAI-Model" v
    | none => h
  match req.tavily_api_key with
    | some v => dictSet h "X-Tavily-API-Key" v
    | none => h

/-- Full outbound headers of the streaming invoke. -/
def buildStreamHeaders (req : AgentTestRequest) : List (String × String) :=
  applyCustomHeaders (baseStreamHeaders req) req.custom_headers

/-- Result of `POST /api/agents/{id}/test` (`test_agent`). -/
inductive TestResult where
  /-- HTTP 404 "Agent not found", raised before the try block. -/
  | notFound
  /-- HTTP 200 with the parsed remote body. -/
  | success (response : Json)
  /-- HTTP 502, the `httpx.HTTPError` branch. -/
  | commFailure (msg : String)
  /-- HTTP 500, the generic exception branch. -/
  | unexpected (msg : String)

/-- `test_agent` (lines 410-477): look the agent up, POST the message,
`raise_for_status()`, parse the body; persist the health outcome on
every branch of the try block. -/
def test_agent (store : List Agent) (agentId : Nat) (net : FetchOutcome)
    (now : Nat) : TestResult × List Agent :=
  match findAgent store agentId with
  | none => (TestResult.notFound, store)
  | some _ =>
      match net with
      | FetchOutcome.transportError m =>
          (TestResult.commFailure ("Agent communication failed: " ++ m),
            setHealth store agentId false now)
      | FetchOutcome.response s j =>
          if is2xx s then
            match j with
            | some data =>
                (TestResult.success data, setHealth store agentId true now)
            | none =>
                (TestResult.unexpected "Unexpected error: JSON decode error",
                  setHealth store agentId false now)
          else
            (TestResult.commFailure
              ("Agent communication failed: status error " ++ toString s),
              setHealth store agentId false now)

/-- One chunk handed to the `StreamingResponse` by `event_generator`. -/
inductive StreamEvent where
  /-- `data: {"error": <body text>, "status_code": <status>}` on a
  non-200 initial status. -/
  | errorStatus (err : String) (statusCode : Nat)
  /-- A relayed non-empty line followed by a line terminator. -/
  | line (s : String)
  /-- A bare line terminator for an empty relayed line. -/
  | blank
  /-- `data: {"error": <msg>, "type": "connection_error"}`. -/
  | connectionError (msg : String)
  /-- `data: {"error": <msg>, "type": "unexpected_error"}`. -/
  | unexpectedError (msg : String)

/-- The outcome of the streamed POST of `stream_agent`. -/
inductive StreamNet where
  /-- `httpx.HTTPError` while connecting or streaming. -/
  | transportError (msg : String)
  /-- A response arrived: initial status, raw body text, and the lines
  of the body as iterated by `aiter_lines`. -/
  | response (status : Nat) (bodyText : String) (lines : List String)

/-- `event_generator` (lines 524-541): on a non-200 initial status
emit exactly one in-band error event and stop; otherwise relay
line-by-line; transport errors become in-band events too. -/
def event_generator (net : StreamNet) : List StreamEvent :=
  match net with
  | StreamNet.transportError m => [StreamEvent.connectionError m]
  | StreamNet.response s body lines =>
      if s ≠ 200 then
        [StreamEvent.errorStatus body s]
      else
        lines.map fun l =>
          if l = "" then StreamEvent.blank else StreamEvent.line l

/-- `stream_agent` (lines 480-551): resolve the agent (404 when
absent, modelled as `none`), then relay; the function never writes to
the store — no health update on any streaming branch. -/
def stream_agent (store : List Agent) (agentId : Nat) (net : StreamNet) :
    Option (List StreamEvent) × List Agent :=
  match findAgent store agentId with
  | none => (none, store)
  | some _ => (some (event_generator net), store)

/-- Result of `GET /api/agents/{id}/health` (`check_agent_health`). -/
inductive HealthResult where
  /-- HTTP 404 "Agent not found", raised before the try block. -/
  | notFound
  /-- HTTP 200 with `status` ("healthy" / "unhealthy") and `url`. -/
  | status (s : String) (url : String)

/-- `check_agent_health` (lines 554-579): GET the card URL and
`raise_for_status()`, but never parse the body; the bare
`except Exception` catches transport errors and status errors alike.
The health fields are persisted on both branches. -/
def check_agent_health (store : List Agent) (agentId : Nat)
    (net : FetchOutcome) (now : Nat) : HealthResult × List Agent :=
  match findAgent store agentId with
  | none => (HealthResult.notFound, store)
  | some a =>
      match net with
      | FetchOutcome.transportError _ =>
          (HealthResult.status "unhealthy" a.url,
            setHealth store agentId false now)
      | FetchOutcome.response s _ =>
          if is2xx s then
            (HealthResult.status "healthy" a.url,
              setHealth store agentId true now)
          else
            (HealthResult.status "unhealthy" a.url,
              setHealth store agentId false now)

/-! ### Helper lemmas -/

theorem rstrip_append_slash (u : String) :
    rstripSlash (u ++ "/") = rstripSlash u := by
  cases u with
  | mk l =>
      show rstripSlash (String.mk (l ++ ['/'])) = rstripSlash (String.mk l)
      simp [rstripSlash, List.dropWhile]

theorem projectCard_elim (card : Json) (url : String) (n uid now : Nat)
    (a : Agent) (h : projectCard card url n uid now = some a) :
    a.url = url ∧ a.id = n ∧ a.userId = uid ∧ a.isHealthy = true
    ∧ a.lastHealthCheck = some now
    ∧ a.name = pyGet card "name" ∧ a.description = pyGet card "description"
    ∧ a.version = pyGet card "version"
    ∧ a.documentationUrl = pyGet card "documentationUrl"
    ∧ a.provider = extractProvider card
    ∧ extractSkills card = some a.skills
    ∧ ∃ fields, card = Json.obj fields := by
  unfold projectCard at h
  cases card with
  | obj fields =>
      cases hsk : extractSkills (Json.obj fields) with
      | none => rw [hsk] at h; simp at h
      | some sk =>
          rw [hsk] at h
          simp only [Option.map_some] at h
          cases h
          refine ⟨rfl, rfl, rfl, rfl, rfl, rfl, rfl, rfl, rfl, rfl, ?_, fields, rfl⟩
          simpa using hsk
  | null => simp at h
  | bool b => simp at h
  | num m => simp at h
  | str s => simp at h
  | arr xs => simp at h

theorem register_ok_elim (store : List Agent) (n : Nat) (u : String)
    (uid : Nat) (net : FetchOutcome) (now : Nat) (a : Agent)
    (store1 : List Agent)
    (h : register store n u uid net now = (RegisterResult.ok a, store1)) :
    store1 = store ++ [a]
    ∧ (store.any (fun x => x.url = rstripSlash u)) = false
    ∧ ∃ card, fetchCard net = Except.ok card
        ∧ projectCard card (rstripSlash u) n uid now = some a := by
  unfold register at h
  cases hany : store.any (fun x => x.url = rstripSlash u) with
  | true => rw [hany] at h; simp at h
  | false =>
      rw [hany] at h
      simp only [Bool.false_eq_true, if_false] at h
      cases hfetch : fetchCard net with
      | error e =>
          rw [hfetch] at h
          cases e with
          | httpError m => simp at h
          | parseError m => simp at h
      | ok card =>
          rw [hfetch] at h
          dsimp only at h
          cases hproj : projectCard card (rstripSlash u) n uid now with
          | none => rw [hproj] at h; simp at h
          | some a0 =>
              rw [hproj] at h
              simp only [Prod.mk.injEq, RegisterResult.ok.injEq] at h
              obtain ⟨ha, hs⟩ := h
              subst ha
              exact ⟨hs.symm, rfl, card, rfl, hproj⟩

/-- Claim C2: for every URL `u`, `u` and `u ++ "/"` canonicalize to the
same stored URL (the trailing slash is stripped before the uniqueness
check), and after a successful registration of `u` a second attempt
with `u` or with `u ++ "/"` fails with the duplicate error (HTTP 400)
and leaves the store unchanged, the successful one having grown it by
exactly one record. -/
theorem register_canonical_dedup (store : List Agent) (n1 uid1 : Nat)
    (u : String) (net : FetchOutcome) (now : Nat) (a : Agent)
    (store1 : List Agent)
    (h : register store n1 u uid1 net now = (RegisterResult.ok a, store1))
    (n2 uid2 : Nat) (net2 : FetchOutcome) (now2 : Nat) :
    rstripSlash (u ++ "/") = rstripSlash u
    ∧ register store1 n2 u uid2 net2 now2
        = (RegisterResult.duplicate, store1)
    ∧ register store1 n2 (u ++ "/") uid2 net2 now2
        = (RegisterResult.duplicate, store1)
    ∧ store1.length = store.length + 1 := by
  obtain ⟨hstore1, _, card, _, hproj⟩ := register_ok_elim _ _ _ _ _ _ _ _ h
  have haurl : a.url = rstripSlash u := (projectCard_elim _ _ _ _ _ _ hproj).1
  have hany : (store1.any (fun x => x.url = rstripSlash u)) = true := by
    rw [List.any_eq_true]
    exact ⟨a, by rw [hstore1]; simp, by simp [haurl]⟩
  refine ⟨rstrip_append_slash u, ?_, ?_, ?_⟩
  · simp [register, hany]
  · simp [register, rstrip_append_slash, hany]
  · rw [hstore1]; simp

/-- The record created by registering `http://h.example/a` against an
empty card at time 5. -/
def witnessAgentC2 : Agent :=
  { id := 1, url := "http://h.example/a", name := none, description := none
    version := none, skills := [], provider := none
    documentationUrl := none, userId := 7, isHealthy := true
    lastHealthCheck := some 5 }

/-- Witness for C2 at a concrete input. -/
theorem register_canonical_dedup_witness :
    register [] 1 "http://h.example/a" 7
        (FetchOutcome.response 200 (some (Json.obj []))) 5
      = (RegisterResult.ok witnessAgentC2, [witnessAgentC2])
    ∧ rstripSlash ("http://h.example/a" ++ "/") = rstripSlash "http://h.example/a"
    ∧ register [witnessAgentC2] 2 "http://h.example/a" 8
        (FetchOutcome.response 200 (some (Json.obj []))) 6
        = (RegisterResult.duplicate, [witnessAgentC2])
    ∧ register [witnessAgentC2] 2 ("http://h.example/a" ++ "/") 8
        (FetchOutcome.response 200 (some (Json.obj []))) 6
        = (RegisterResult.duplicate, [witnessAgentC2])
    ∧ ([witnessAgentC2] : List Agent).length = ([] : List Agent).length + 1 := by
  have h : register [] 1 "http://h.example/a" 7
      (FetchOutcome.response 200 (some (Json.obj []))) 5
      = (RegisterResult.ok witnessAgentC2, [witnessAgentC2]) := rfl
  have hc := register_canonical_dedup [] 1 7 "http://h.example/a"
    (FetchOutcome.response 200 (some (Json.obj []))) 5 witnessAgentC2
    [witnessAgentC2] h 2 8
    (FetchOutcome.response 200 (some (Json.obj []))) 6
  exact ⟨h, hc.1, hc.2.1, hc.2.2.1, hc.2.2.2⟩

theorem skillOf_elim (j : Json) (t : Skill) (h : skillOf j = some t) :
    ∃ fields, j = Json.obj fields
      ∧ t.id = pyGet j "id" ∧ t.name = pyGet j "name"
      ∧ t.description = pyGet j "description" := by
  cases j with
  | obj fields =>
      simp only [skillOf, Option.some.injEq] at h
      cases h
      exact ⟨fields, rfl, rfl, rfl, rfl⟩
  | null => simp [skillOf] at h
  | bool b => simp [skillOf] at h
  | num m => simp [skillOf] at h
  | str s => simp [skillOf] at h
  | arr xs => simp [skillOf] at h

theorem mapM_skillOf_forall2 (xs : List Json) (sk : List Skill)
    (h : xs.mapM skillOf = some sk) :
    List.Forall₂ (fun j t => skillOf j = some t) xs sk := by
  induction xs generalizing sk with
  | nil =>
      simp only [List.mapM_nil, pure, Option.some.injEq] at h
      cases h
      exact List.Forall₂.nil
  | cons x rest ih =>
      rw [List.mapM_cons] at h
      cases hx : skillOf x with
      | none => rw [hx] at h; simp at h
      | some t =>
          rw [hx] at h
          cases hrest : rest.mapM skillOf with
          | none => rw [hrest] at h; simp at h
          | some ts =>
              rw [hrest] at h
              simp only [Option.bind_some, Option.pure_def,
                Option.some.injEq, Option.bind_eq_bind] at h
              cases h
              exact List.Forall₂.cons hx (ih ts hrest)

/-- The claim C7 counterexample card: a provider that is neither an
object nor a string. -/
def provBoolCard : Json := Json.obj [("provider", Json.bool true)]

/-- The record the code actually creates for `provBoolCard`. -/
def provBoolAgent : Agent :=
  { id := 1, url := "http://p.example", name := none, description := none
    version := none, skills := [], provider := some (Json.bool true)
    documentationUrl := none, userId := 3, isHealthy := true
    lastHealthCheck := some 4 }

/-- Counterexample to claim C7 as stated: when the card's provider
field is neither an object nor a plain string (here the boolean
`true`), the stored provider is NOT absent — the value is stored
verbatim. -/
theorem register_provider_counterexample :
    register [] 1 "http://p.example" 3
        (FetchOutcome.response 200 (some provBoolCard)) 4
      = (RegisterResult.ok provBoolAgent, [provBoolAgent])
    ∧ provBoolAgent.provider = some (Json.bool true)
    ∧ (provBoolAgent.provider).isSome = true :=
  ⟨rfl, rfl, rfl⟩

/-- Claim C7 (amended): for every successful registration, the fetched
card is projected into the stored record: each skill becomes an
`{id, name, description}` triple with missing card fields becoming
absent, the provider is the nested organization value if the card's
provider field is an object, absent if it is missing or null, and
otherwise the provider value verbatim (in particular a plain string is
kept verbatim); the new record has `isHealthy = true` and
`lastHealthCheck = now`. -/
theorem register_projection (store : List Agent) (n uid now sc : Nat)
    (u : String) (card : Json) (a : Agent) (store1 : List Agent)
    (h : register store n u uid (FetchOutcome.response sc (some card)) now
      = (RegisterResult.ok a, store1)) :
    a.isHealthy = true
    ∧ a.lastHealthCheck = some now
    ∧ a.name = pyGet card "name"
    ∧ a.description = pyGet card "description"
    ∧ a.version = pyGet card "version"
    ∧ a.documentationUrl = pyGet card "documentationUrl"
    ∧ (∀ fields, jLookup card "provider" = some (Json.obj fields) →
        a.provider = pyGet (Json.obj fields) "organization")
    ∧ (jLookup card "provider" = some Json.null → a.provider = none)
    ∧ (jLookup card "provider" = none → a.provider = none)
    ∧ (∀ v, jLookup card "provider" = some v → v ≠ Json.null →
        (∀ fields, v ≠ Json.obj fields) → a.provider = some v)
    ∧ (jLookup card "skills" = none → a.skills = [])
    ∧ (∀ xs, jLookup card "skills" = some (Json.arr xs) →
        List.Forall₂ (fun j t => ∃ fields, j = Json.obj fields
          ∧ Skill.id t = pyGet j "id"
          ∧ Skill.name t = pyGet j "name"
          ∧ Skill.description t = pyGet j "description") xs a.skills) := by
  obtain ⟨_, _, card0, hfetch, hproj⟩ := register_ok_elim _ _ _ _ _ _ _ _ h
  have hcard : card0 = card := by
    by_cases his : is2xx sc = true
    · simp [fetchCard, his] at hfetch; exact hfetch.symm
    · simp [fetchCard, his] at hfetch
  subst hcard
  obtain ⟨_, _, _, hhealthy, hlast, hname, hdesc, hver, hdoc, hprov, hsk, _⟩ :=
    projectCard_elim _ _ _ _ _ _ hproj
  refine ⟨hhealthy, hlast, hname, hdesc, hver, hdoc, ?_, ?_, ?_, ?_, ?_, ?_⟩
  · intro fields hf
    rw [hprov]; unfold extractProvider; rw [hf]
  · intro hf
    rw [hprov]; unfold extractProvider; rw [hf]
  · intro hf
    rw [hprov]; unfold extractProvider; rw [hf]
  · intro v hf hvnull hvobj
    rw [hprov]; unfold extractProvider; rw [hf]
    cases v with
    | null => exact absurd rfl hvnull
    | obj fields => exact absurd rfl (hvobj fields)
    | bool b => rfl
    | num m => rfl
    | str s => rfl
    | arr xs => rfl
  · intro hf
    unfold extractSkills at hsk
    rw [hf] at hsk
    simpa using hsk.symm
  · intro xs hf
    unfold extractSkills at hsk
    rw [hf] at hsk
    exact (mapM_skillOf_forall2 xs a.skills hsk).imp
      (fun _ _ hj => skillOf_elim _ _ hj)

/-- The Echo scenario card of the spec. -/
def echoCard : Json :=
  Json.obj [("name", Json.str "Echo"),
    ("skills", Json.arr [Json.obj [("id", Json.str "s1"),
      ("name", Json.str "echo")]])]

/-- The record created for `echoCard`. -/
def echoAgent : Agent :=
  { id := 1, url := "http://agent.example/a"
    name := some (Json.str "Echo"), description := none, version := none
    skills := [⟨some (Json.str "s1"), some (Json.str "echo"), none⟩]
    provider := none, documentationUrl := none, userId := 7
    isHealthy := true, lastHealthCheck := some 5 }

/-- Witness for C7 (amended) on the spec's Echo scenario. -/
theorem register_projection_witness :
    register [] 1 "http://agent.example/a" 7
        (FetchOutcome.response 200 (some echoCard)) 5
      = (RegisterResult.ok echoAgent, [echoAgent])
    ∧ echoAgent.isHealthy = true
    ∧ echoAgent.name = some (Json.str "Echo")
    ∧ echoAgent.skills
        = [⟨some (Json.str "s1"), some (Json.str "echo"), none⟩]
    ∧ echoAgent.provider = none := by
  have h : register [] 1 "http://agent.example/a" 7
      (FetchOutcome.response 200 (some echoCard)) 5
      = (RegisterResult.ok echoAgent, [echoAgent]) := rfl
  have hp := register_projection [] 1 7 5 200 "http://agent.example/a"
    echoCard echoAgent [echoAgent] h
  exact ⟨h, hp.1, hp.2.2.1.trans rfl, rfl,
    hp.2.2.2.2.2.2.2.2.1 rfl⟩

/-- Claim C8: every registration attempt that reaches the card fetch
(no duplicate) and whose fetch fails — transport error, non-2xx
status, or a 2xx body that is not valid JSON — ends in one of the two
400 branches, surfacing the cause, and leaves the store unchanged (no
record is created). -/
theorem register_fetch_failure (store : List Agent) (n uid now : Nat)
    (u : String) (net : FetchOutcome)
    (hnodup : store.any (fun x => x.url = rstripSlash u) = false)
    (hfail : (∃ m, net = FetchOutcome.transportError m)
      ∨ (∃ s j, net = FetchOutcome.response s j ∧ is2xx s = false)
      ∨ (∃ s, net = FetchOutcome.response s none ∧ is2xx s = true)) :
    (register store n u uid net now).2 = store
    ∧ ∃ d, register store n u uid net now
          = (RegisterResult.fetchFailed d, store)
        ∨ register store n u uid net now
          = (RegisterResult.invalidCard d, store) := by
  rcases hfail with ⟨m, rfl⟩ | ⟨s, j, rfl, his⟩ | ⟨s, rfl, his⟩
  · have hreg : register store n u uid (FetchOutcome.transportError m) now
        = (RegisterResult.fetchFailed
            ("Failed to fetch agent card from " ++ rstripSlash u ++
              "/.well-known/agent.json: " ++ m), store) := by
      simp [register, hnodup, fetchCard]
    exact ⟨by rw [hreg], _, Or.inl hreg⟩
  · have hreg : register store n u uid (FetchOutcome.response s j) now
        = (RegisterResult.fetchFailed
            ("Failed to fetch agent card from " ++ rstripSlash u ++
              "/.well-known/agent.json: " ++
              ("status error " ++ toString s)), store) := by
      simp [register, hnodup, fetchCard, his]
    exact ⟨by rw [hreg], _, Or.inl hreg⟩
  · have hreg : register store n u uid (FetchOutcome.response s none) now
        = (RegisterResult.invalidCard
            ("Invalid agent card response: " ++ "JSON decode error"),
          store) := by
      simp [register, hnodup, fetchCard, his]
    exact ⟨by rw [hreg], _, Or.inr hreg⟩

/-- Witness for C8: unreachable card endpoint, empty store. -/
theorem register_fetch_failure_witness :
    (register [] 1 "http://down.example" 2
        (FetchOutcome.transportError "connection refused") 3).2 = []
    ∧ ∃ d, register [] 1 "http://down.example" 2
          (FetchOutcome.transportError "connection refused") 3
          = (RegisterResult.fetchFailed d, [])
        ∨ register [] 1 "http://down.example" 2
          (FetchOutcome.transportError "connection refused") 3
          = (RegisterResult.invalidCard d, []) :=
  register_fetch_failure [] 1 2 3 "http://down.example"
    (FetchOutcome.transportError "connection refused") rfl
    (Or.inl ⟨"connection refused", rfl⟩)

/-- An agent record with its two health fields blanked, to express
that an operation touched nothing else. -/
def eraseHealth (a : Agent) : Agent :=
  { a with isHealthy := false, lastHealthCheck := none }

theorem setHealth_eraseHealth (store : List Agent) (agentId : Nat)
    (b : Bool) (now : Nat) :
    (setHealth store agentId b now).map eraseHealth
      = store.map eraseHealth := by
  induction store with
  | nil => rfl
  | cons x xs ih =>
      unfold setHealth at *
      simp only [List.map_cons, List.map, ih]
      cases hx : (x.id == agentId) <;> simp [hx, eraseHealth]

theorem findAgent_setHealth (store : List Agent) (agentId : Nat)
    (b : Bool) (now : Nat) (a : Agent)
    (h : findAgent store agentId = some a) :
    findAgent (setHealth store agentId b now) agentId
      = some { a with isHealthy := b, lastHealthCheck := some now } := by
  induction store with
  | nil => simp [findAgent] at h
  | cons x xs ih =>
      cases hx : (x.id == agentId) with
      | true =>
          have hax : a = x := by
            unfold findAgent at h
            rw [List.find?_cons] at h
            simp [hx] at h
            exact h.symm
          subst hax
          unfold findAgent setHealth
          simp only [List.map_cons]
          rw [List.find?_cons]
          simp [hx]
      | false =>
          have h2 : findAgent xs agentId = some a := by
            unfold findAgent at h ⊢
            rw [List.find?_cons] at h
            simpa [hx] using h
          have hrec := ih h2
          unfold findAgent setHealth at hrec ⊢
          simp only [List.map_cons]
          rw [List.find?_cons]
          simpa [hx] using hrec

/-- Claim C1: on an existing agent, the synchronous invoke updates and
persists `(isHealthy, lastHealthCheck)` together on every branch: the
result is never the 404, the new store is `setHealth` of the old one —
both fields written in the same commit, nothing else changed — with
`isHealthy = true` exactly on the success branch and
`lastHealthCheck = now` on all branches. -/
theorem test_agent_health_atomic (store : List Agent) (agentId now : Nat)
    (net : FetchOutcome) (a : Agent)
    (h : findAgent store agentId = some a) :
    ∃ b r, test_agent store agentId net now = (r, setHealth store agentId b now)
    ∧ r ≠ TestResult.notFound
    ∧ ((∃ d, r = TestResult.success d) ↔ b = true)
    ∧ ((∃ m, r = TestResult.commFailure m) ∨ (∃ m, r = TestResult.unexpected m)
        ↔ b = false)
    ∧ findAgent (setHealth store agentId b now) agentId
        = some { a with isHealthy := b, lastHealthCheck := some now }
    ∧ (setHealth store agentId b now).map eraseHealth
        = store.map eraseHealth := by
  have hfind := findAgent_setHealth store agentId
  have herase := setHealth_eraseHealth store agentId
  cases net with
  | transportError m =>
      refine ⟨false, TestResult.commFailure ("Agent communication failed: " ++ m),
        ?_, by simp, by simp, ?_, hfind false now a h, herase false now⟩
      · simp [test_agent, h]
      · constructor
        · intro hx; rfl
        · intro hx; exact Or.inl ⟨_, rfl⟩
  | response s j =>
      cases his : is2xx s with
      | true =>
          cases j with
          | some data =>
              refine ⟨true, TestResult.success data, ?_, by simp, ?_, ?_,
                hfind true now a h, herase true now⟩
              · simp [test_agent, h, his]
              · constructor
                · intro hx; rfl
                · intro hx; exact ⟨data, rfl⟩
              · constructor
                · rintro (⟨m, hm⟩ | ⟨m, hm⟩) <;> cases hm
                · intro hx; cases hx
          | none =>
              refine ⟨false,
                TestResult.unexpected "Unexpected error: JSON decode error",
                ?_, by simp, by simp, ?_, hfind false now a h, herase false now⟩
              · simp [test_agent, h, his]
              · constructor
                · intro hx; rfl
                · intro hx; exact Or.inr ⟨_, rfl⟩
      | false =>
          refine ⟨false,
            TestResult.commFailure
              ("Agent communication failed: status error " ++ toString s),
            ?_, by simp, by simp, ?_, hfind false now a h, herase false now⟩
          · simp [test_agent, h, his]
          · constructor
            · intro hx; rfl
            · intro hx; exact Or.inl ⟨_, rfl⟩

/-- A one-row store used by the health/invoke witnesses. -/
def probeAgent : Agent :=
  { id := 1, url := "http://w.example", name := none, description := none
    version := none, skills := [], provider := none
    documentationUrl := none, userId := 2, isHealthy := false
    lastHealthCheck := none }

/-- Witness for C1: a transport failure on a one-agent store. -/
theorem test_agent_health_atomic_witness :
    ∃ b r, test_agent [probeAgent] 1 (FetchOutcome.transportError "timeout") 7
        = (r, setHealth [probeAgent] 1 b 7)
    ∧ r ≠ TestResult.notFound
    ∧ ((∃ d, r = TestResult.success d) ↔ b = true)
    ∧ ((∃ m, r = TestResult.commFailure m) ∨ (∃ m, r = TestResult.unexpected m)
        ↔ b = false)
    ∧ findAgent (setHealth [probeAgent] 1 b 7) 1
        = some { probeAgent with isHealthy := b, lastHealthCheck := some 7 }
    ∧ (setHealth [probeAgent] 1 b 7).map eraseHealth
        = [probeAgent].map eraseHealth :=
  test_agent_health_atomic [probeAgent] 1 7
    (FetchOutcome.transportError "timeout") probeAgent rfl

/-- Claim C9: a 2xx response whose body does not parse as JSON does not
take the success branch: the synchronous invoke fails with the
unexpected-failure error (HTTP 500) and persists
`isHealthy = false, lastHealthCheck = now`. -/
theorem test_agent_2xx_bad_json (store : List Agent) (agentId now s : Nat)
    (a : Agent) (h : findAgent store agentId = some a)
    (hs1 : 200 ≤ s) (hs2 : s < 300) :
    test_agent store agentId (FetchOutcome.response s none) now
      = (TestResult.unexpected "Unexpected error: JSON decode error",
        setHealth store agentId false now)
    ∧ findAgent (setHealth store agentId false now) agentId
        = some { a with isHealthy := false, lastHealthCheck := some now } := by
  have his : is2xx s = true := by simp [is2xx, hs1, hs2]
  exact ⟨by simp [test_agent, h, his], findAgent_setHealth _ _ _ _ _ h⟩

/-- Witness for C9: HTTP 200 with an unparsable body. -/
theorem test_agent_2xx_bad_json_witness :
    (200 ≤ 200 ∧ 200 < 300)
    ∧ (test_agent [probeAgent] 1 (FetchOutcome.response 200 none) 7
        = (TestResult.unexpected "Unexpected error: JSON decode error",
          setHealth [probeAgent] 1 false 7)
      ∧ findAgent (setHealth [probeAgent] 1 false 7) 1
          = some { probeAgent with
                    isHealthy := false
                    lastHealthCheck := some 7 }) :=
  ⟨⟨by decide, by decide⟩,
    test_agent_2xx_bad_json [probeAgent] 1 7 200 probeAgent rfl
      (by decide) (by decide)⟩

/-- Claim C3: streaming from an existing agent whose initial response
status is not 2xx yields exactly one event, carrying the body text and
the status code, and the store — in particular every record's
`isHealthy` and `lastHealthCheck` — is left untouched. -/
theorem stream_non2xx_one_error_event (store : List Agent)
    (agentId : Nat) (a : Agent) (h : findAgent store agentId = some a)
    (s : Nat) (body : String) (lines : List String)
    (hs : ¬(200 ≤ s ∧ s < 300)) :
    stream_agent store agentId (StreamNet.response s body lines)
      = (some [StreamEvent.errorStatus body s], store) := by
  have hne : s ≠ 200 := by
    intro hx
    exact hs (by rw [hx]; exact ⟨le_refl 200, by norm_num⟩)
  simp [stream_agent, event_generator, h, hne]

/-- Witness for C3: the spec scenario, HTTP 500 with body "boom". -/
theorem stream_non2xx_one_error_event_witness :
    stream_agent [probeAgent] 1 (StreamNet.response 500 "boom" [])
      = (some [StreamEvent.errorStatus "boom" 500], [probeAgent]) :=
  stream_non2xx_one_error_event [probeAgent] 1 probeAgent rfl 500 "boom" []
    (by decide)

/-- Whether the health endpoint answered with a structured
`{status, url}` result (`true`) or raised the 404 error (`false`). -/
def isStatusResult : HealthResult → Bool
  | HealthResult.notFound => false
  | HealthResult.status _ _ => true

/-- Counterexample to claim C4 as stated: a request to the health
endpoint for an id that is not in the store does NOT return a
structured `{status, url}` result — it raises the 404 error
(`HealthResult.notFound`). -/
theorem check_health_notfound_counterexample :
    check_agent_health [] 1 (FetchOutcome.response 200 (some Json.null)) 0
      = (HealthResult.notFound, [])
    ∧ isStatusResult (check_agent_health [] 1
        (FetchOutcome.response 200 (some Json.null)) 0).1 = false :=
  ⟨rfl, rfl⟩

/-- Claim C4 (amended): on an EXISTING agent, the health-check endpoint
never raises: whatever the probe outcome — transport error, non-2xx
status, or any 2xx response — it returns a structured result with
status "healthy" or "unhealthy" and the agent's URL. -/
theorem check_health_never_errors (store : List Agent) (agentId now : Nat)
    (net : FetchOutcome) (a : Agent)
    (h : findAgent store agentId = some a) :
    check_agent_health store agentId net now
        = (HealthResult.status "healthy" a.url,
          setHealth store agentId true now)
    ∨ check_agent_health store agentId net now
        = (HealthResult.status "unhealthy" a.url,
          setHealth store agentId false now) := by
  cases net with
  | transportError m => exact Or.inr (by simp [check_agent_health, h])
  | response s j =>
      cases his : is2xx s with
      | true => exact Or.inl (by simp [check_agent_health, h, his])
      | false => exact Or.inr (by simp [check_agent_health, h, his])

/-- Witness for C4 (amended): a connection-refused probe. -/
theorem check_health_never_errors_witness :
    check_agent_health [probeAgent] 1
        (FetchOutcome.transportError "connection refused") 3
        = (HealthResult.status "healthy" probeAgent.url,
          setHealth [probeAgent] 1 true 3)
    ∨ check_agent_health [probeAgent] 1
        (FetchOutcome.transportError "connection refused") 3
        = (HealthResult.status "unhealthy" probeAgent.url,
          setHealth [probeAgent] 1 false 3) :=
  check_health_never_errors [probeAgent] 1 3
    (FetchOutcome.transportError "connection refused") probeAgent rfl

/-- Counterexample to claim C5 as stated: probing an agent whose card
endpoint answers 2xx with a body that does NOT parse as JSON
(`bodyJson = none`) is reported healthy and persists
`isHealthy = true` — not `false` as the claim requires. -/
theorem check_health_no_parse_counterexample :
    check_agent_health [probeAgent] 1 (FetchOutcome.response 200 none) 9
      = (HealthResult.status "healthy" probeAgent.url,
        [{ probeAgent with isHealthy := true, lastHealthCheck := some 9 }])
    ∧ ((check_agent_health [probeAgent] 1
          (FetchOutcome.response 200 none) 9).2.map
        (fun a => a.isHealthy)) = [true] :=
  ⟨rfl, rfl⟩

/-- Claim C5 (amended): the probe re-fetches the card URL but never
parses the body: ANY 2xx response — in particular one whose body is
not valid JSON — sets `isHealthy = true`, while a transport error or a
non-2xx status sets `isHealthy = false`; `lastHealthCheck` is set to
`now` and persisted together with the flag in every case. -/
theorem check_health_ignores_body (store : List Agent)
    (agentId now : Nat) (a : Agent)
    (h : findAgent store agentId = some a) :
    (∀ s j, is2xx s = true →
      check_agent_health store agentId (FetchOutcome.response s j) now
        = (HealthResult.status "healthy" a.url,
          setHealth store agentId true now))
    ∧ (∀ s j, is2xx s = false →
      check_agent_health store agentId (FetchOutcome.response s j) now
        = (HealthResult.status "unhealthy" a.url,
          setHealth store agentId false now))
    ∧ (∀ m, check_agent_health store agentId
          (FetchOutcome.transportError m) now
        = (HealthResult.status "unhealthy" a.url,
          setHealth store agentId false now))
    ∧ findAgent (setHealth store agentId true now) agentId
        = some { a with isHealthy := true, lastHealthCheck := some now }
    ∧ findAgent (setHealth store agentId false now) agentId
        = some { a with isHealthy := false, lastHealthCheck := some now } := by
  refine ⟨?_, ?_, ?_, findAgent_setHealth _ _ _ _ _ h,
    findAgent_setHealth _ _ _ _ _ h⟩
  · intro s j his; simp [check_agent_health, h, his]
  · intro s j his; simp [check_agent_health, h, his]
  · intro m; simp [check_agent_health, h]

/-- Witness for C5 (amended): 2xx with an unparsable body on a
one-agent store. -/
theorem check_health_ignores_body_witness :
    is2xx 200 = true
    ∧ check_agent_health [probeAgent] 1 (FetchOutcome.response 200 none) 9
        = (HealthResult.status "healthy" probeAgent.url,
          setHealth [probeAgent] 1 true 9) :=
  ⟨rfl, (check_health_ignores_body [probeAgent] 1 9 probeAgent rfl).1
    200 none rfl⟩

theorem dictGet_map_overwrite (d : List (String × String)) (k v : String)
    (hany : d.any (fun p => p.1 = k) = true) :
    dictGet (d.map (fun p => if p.1 = k then (k, v) else p)) k = some v := by
  induction d with
  | nil => simp at hany
  | cons q d ih =>
      by_cases hq : q.1 = k
      · simp [dictGet, hq]
      · have htail : d.any (fun p => p.1 = k) = true := by
          simpa [hq] using hany
        simp [dictGet, hq, ih htail]

theorem dictGet_map_other (d : List (String × String)) (k v n : String)
    (hn : n ≠ k) :
    dictGet (d.map (fun p => if p.1 = k then (k, v) else p)) n
      = dictGet d n := by
  induction d with
  | nil => rfl
  | cons q d ih =>
      by_cases hq : q.1 = k
      · have hqn : q.1 ≠ n := by rw [hq]; exact fun h => hn h.symm
        simp [dictGet, hq, hqn, Ne.symm hn, ih]
      · simp [dictGet, hq, ih]

theorem dictGet_append_single (d : List (String × String)) (k v n : String) :
    dictGet (d ++ [(k, v)]) n
      = match dictGet d n with
        | some w => some w
        | none => if k = n then some v else none := by
  induction d with
  | nil => by_cases hk : k = n <;> simp [dictGet, hk]
  | cons q d ih =>
      by_cases hq : q.1 = n
      · simp [dictGet, hq]
      · simp [dictGet, hq, ih]

theorem dictGet_eq_none_of_any_false (d : List (String × String))
    (n : String) (h : d.any (fun p => p.1 = n) = false) :
    dictGet d n = none := by
  induction d with
  | nil => rfl
  | cons q d ih =>
      have hq : ¬ q.1 = n := by
        intro hx
        simp [hx] at h
      have htail : d.any (fun p => p.1 = n) = false := by
        simpa [hq] using h
      simp [dictGet, hq, ih htail]

theorem dictGet_dictSet (d : List (String × String)) (k v n : String) :
    dictGet (dictSet d k v) n = if n = k then some v else dictGet d n := by
  unfold dictSet
  cases hany : d.any (fun p => p.1 = k) with
  | true =>
      rw [if_pos rfl]
      by_cases hn : n = k
      · subst hn
        rw [dictGet_map_overwrite d n v hany, if_pos rfl]
      · rw [dictGet_map_other d k v n hn, if_neg hn]
  | false =>
      rw [if_neg (by simp)]
      rw [dictGet_append_single]
      by_cases hn : n = k
      · subst hn
        rw [dictGet_eq_none_of_any_false d n hany]
      · have hkn : ¬ k = n := fun h => hn h.symm
        cases hfind : dictGet d n with
        | some w => simp [hfind, hn]
        | none => simp [hfind, hn, hkn]

/-- The value of the LAST entry of the custom-header mapping whose
normalized name is `n`, if any: the entry whose assignment survives in
the finished dict. -/
def lastCustomValue : List (String × String) → String → Option String
  | [], _ => none
  | kv :: rest, n =>
      match lastCustomValue rest n with
      | some v => some v
      | none => if header_key kv.1 = n then some kv.2 else none

theorem dictGet_applyCustom (custom : List (String × String))
    (h : List (String × String)) (n : String) :
    dictGet (applyCustomHeaders h custom) n
      = match lastCustomValue custom n with
        | some v => some v
        | none => dictGet h n := by
  induction custom generalizing h with
  | nil => rfl
  | cons kv rest ih =>
      show dictGet
          (applyCustomHeaders (dictSet h (header_key kv.1) kv.2) rest) n = _
      rw [ih]
      cases hr : lastCustomValue rest n with
      | some v => simp [lastCustomValue, hr]
      | none =>
          simp only [lastCustomValue, hr]
          rw [dictGet_dictSet]
          by_cases hn : header_key kv.1 = n
          · rw [if_pos hn.symm, if_pos hn]
          · rw [if_neg (fun hx => hn hx.symm), if_neg hn]

theorem lastCustomValue_mem (custom : List (String × String))
    (n v : String) (h : lastCustomValue custom n = some v) :
    ∃ k, (k, v) ∈ custom ∧ header_key k = n := by
  induction custom with
  | nil => simp [lastCustomValue] at h
  | cons kv rest ih =>
      obtain ⟨k0, v0⟩ := kv
      simp only [lastCustomValue] at h
      cases hr : lastCustomValue rest n with
      | some w =>
          rw [hr] at h
          simp only [Option.some.injEq] at h
          subst h
          obtain ⟨k, hk1, hk2⟩ := ih hr
          exact ⟨k, List.mem_cons_of_mem _ hk1, hk2⟩
      | none =>
          rw [hr] at h
          by_cases hkn : header_key k0 = n
          · rw [if_pos hkn] at h
            simp only [Option.some.injEq] at h
            subst h
            exact ⟨k0, List.mem_cons_self _ _, hkn⟩
          · rw [if_neg hkn] at h
            cases h

theorem lastCustomValue_isSome (custom : List (String × String))
    (n k v : String) (hmem : (k, v) ∈ custom) (hk : header_key k = n) :
    ∃ w, lastCustomValue custom n = some w := by
  induction custom with
  | nil => cases hmem
  | cons kv rest ih =>
      rcases List.mem_cons.mp hmem with heq | htail
      · simp only [lastCustomValue]
        cases hr : lastCustomValue rest n with
        | some w => exact ⟨w, rfl⟩
        | none =>
            refine ⟨kv.2, ?_⟩
            have h1 : kv.1 = k := by rw [← heq]
            rw [if_pos (by rw [h1]; exact hk)]
      · obtain ⟨w, hw⟩ := ih htail
        exact ⟨w, by simp [lastCustomValue, hw]⟩

/-- The counterexample request for claim C6: the two distinct custom
keys `foo` and `X-foo` normalize to the same header name. -/
def collideReq : AgentTestRequest :=
  { message := "m", openai_api_key := none, openai_base_url := none
    openai_model := none, tavily_api_key := none
    custom_headers := [("foo", "bar"), ("X-foo", "baz")] }

/-- Counterexample to claim C6 as stated: the entry `("foo", "bar")` of
the custom-header mapping normalizes to the name `X-foo`, but the
outbound request does not carry the value `bar` under that name — a
later entry normalizing to the same name overwrote it. -/
theorem custom_header_rule_counterexample :
    ("foo", "bar") ∈ collideReq.custom_headers
    ∧ header_key "foo" = "X-foo"
    ∧ dictGet (buildTestHeaders collideReq) "X-foo" = some "baz"
    ∧ (dictGet (buildTestHeaders collideReq) "X-foo"
        == some "bar") = false :=
  ⟨by simp [collideReq], rfl, rfl, rfl⟩

/-- Claim C6 (amended): for every entry `(key, value)` of the
custom-header mapping, the outbound header name is `key` verbatim when
`key.lower()` starts with `x-` and `X-` ++ `key` otherwise, and — in
both the synchronous and the streaming invoke — the outbound request
carries `value` unmodified under that name, provided the entry is the
last one of the mapping normalizing to that name (a later colliding
entry wins instead). -/
theorem custom_header_rule (req : AgentTestRequest) (k v : String)
    (hmem : (k, v) ∈ req.custom_headers)
    (hlast : lastCustomValue req.custom_headers (header_key k) = some v) :
    dictGet (buildTestHeaders req) (header_key k) = some v
    ∧ dictGet (buildStreamHeaders req) (header_key k) = some v
    ∧ (startsWithXDash k = true → header_key k = k)
    ∧ (startsWithXDash k = false → header_key k = "X-" ++ k) := by
  refine ⟨?_, ?_, ?_, ?_⟩
  · rw [buildTestHeaders, dictGet_applyCustom, hlast]
  · rw [buildStreamHeaders, dictGet_applyCustom, hlast]
  · intro hx; simp [header_key, hx]
  · intro hx; simp [header_key, hx]

/-- Witness for C6 (amended): the spec's two scenarios, `foo: bar`
sent as `X-foo: bar` and `X-Foo: bar` sent verbatim. -/
theorem custom_header_rule_witness :
    (dictGet (buildTestHeaders
        ⟨"m", none, none, none, none, [("foo", "bar")]⟩) "X-foo"
      = some "bar")
    ∧ (dictGet (buildTestHeaders
        ⟨"m", none, none, none, none, [("X-Foo", "bar")]⟩) "X-Foo"
      = some "bar") := by
  constructor
  · exact (custom_header_rule ⟨"m", none, none, none, none, [("foo", "bar")]⟩
      "foo" "bar" (by simp) rfl).1
  · exact (custom_header_rule ⟨"m", none, none, none, none, [("X-Foo", "bar")]⟩
      "X-Foo" "bar" (by simp) rfl).1

/-- The header names `test_agent` writes before the custom loop. -/
def fixedTestHeaderNames : List String :=
  ["Content-Type", "X-OpenAI-API-Key", "X-OpenAI-Base-URL",
    "X-OpenAI-Model", "X-Tavily-API-Key"]

/-- The header names `stream_agent` writes before the custom loop. -/
def fixedStreamHeaderNames : List String :=
  ["Content-Type", "Accept", "X-OpenAI-API-Key", "X-OpenAI-Base-URL",
    "X-OpenAI-Model", "X-Tavily-API-Key"]

/-- Claim C10: the custom-header loop runs after the fixed headers in
both invokes, so whenever some custom entry normalizes to a fixed
header name, the final value of that header is a custom entry's value
— overriding the value derived from the dedicated request field or the
built-in default. -/
theorem custom_headers_override (req : AgentTestRequest) (n : String)
    (hn : n ∈ fixedTestHeaderNames ∨ n ∈ fixedStreamHeaderNames)
    (k0 v0 : String) (hmem : (k0, v0) ∈ req.custom_headers)
    (hk0 : header_key k0 = n) :
    ∃ k v, (k, v) ∈ req.custom_headers ∧ header_key k = n
      ∧ dictGet (buildTestHeaders req) n = some v
      ∧ dictGet (buildStreamHeaders req) n = some v := by
  obtain ⟨w, hw⟩ := lastCustomValue_isSome req.custom_headers n k0 v0 hmem hk0
  obtain ⟨k, hkmem, hkn⟩ := lastCustomValue_mem req.custom_headers n w hw
  refine ⟨k, w, hkmem, hkn, ?_, ?_⟩
  · rw [buildTestHeaders, dictGet_applyCustom, hw]
  · rw [buildStreamHeaders, dictGet_applyCustom, hw]

/-- Witness for C10: `OpenAI-Model: o3` overrides the value `gpt`
derived from the dedicated `openai_model` field, in both invokes. -/
theorem custom_headers_override_witness :
    ("X-OpenAI-Model" ∈ fixedTestHeaderNames
        ∨ "X-OpenAI-Model" ∈ fixedStreamHeaderNames)
    ∧ dictGet (buildTestHeaders
        ⟨"m", none, none, some "gpt", none, [("OpenAI-Model", "o3")]⟩)
        "X-OpenAI-Model" = some "o3"
    ∧ (∃ k v, (k, v) ∈ (⟨"m", none, none, some "gpt", none,
          [("OpenAI-Model", "o3")]⟩ : AgentTestRequest).custom_headers
        ∧ header_key k = "X-OpenAI-Model"
        ∧ dictGet (buildTestHeaders
            ⟨"m", none, none, some "gpt", none, [("OpenAI-Model", "o3")]⟩)
            "X-OpenAI-Model" = some v
        ∧ dictGet (buildStreamHeaders
            ⟨"m", none, none, some "gpt", none, [("OpenAI-Model", "o3")]⟩)
            "X-OpenAI-Model" = some v) := by
  refine ⟨Or.inl (by simp [fixedTestHeaderNames]), rfl, ?_⟩
  exact custom_headers_override
    ⟨"m", none, none, some "gpt", none, [("OpenAI-Model", "o3")]⟩
    "X-OpenAI-Model" (Or.inl (by simp [fixedTestHeaderNames]))
    "OpenAI-Model" "o3" (by simp) rfl

end AgentHub
